import Mathlib

/-!
Shallow embedding of the ReviewIn classroom peer-review backend
(Flask routes in `backend/routes/*.py`, models in `backend/models.py`,
helpers in `backend/utils.py`).

Conventions of the embedding:
* Database rows are Lean structures; the database session is an explicit
  `DB` record of row lists plus autoincrement counters.
* Every route handler is a pure function `DB → args → Outcome α × DB`,
  returning the HTTP response and the post-state.
* `datetime.now(timezone.utc)` is passed in as a `now : Nat` argument;
  the random passcode generator and the bcrypt hash/check primitives are
  external collaborators, passed in as explicit arguments.
* Python string operations `.strip()` and `.lower()` are modelled at the
  character-list level (`pyStrip`, `pyLower`); `Char.toLower` matches
  CPython on the ASCII range, which is all the validated inputs allow.
-/

namespace ReviewIn

/-- Model of Python `str.strip()`: drop leading and trailing whitespace. -/
def pyStrip (s : String) : String :=
  ⟨((s.data.dropWhile Char.isWhitespace).reverse.dropWhile Char.isWhitespace).reverse⟩

/-- Model of Python `str.lower()` (ASCII range). -/
def pyLower (s : String) : String :=
  ⟨s.data.map Char.toLower⟩

/-- Model of the Python idiom `s.strip() or None`: strip, and an empty
result becomes `None`. -/
def pyStripOpt (s : String) : Option String :=
  let t := pyStrip s
  if t = "" then none else some t

/-- Character class `[a-zA-Z0-9._%+-]` of the email regex local part. -/
def isEmailLocalChar (c : Char) : Bool :=
  c.isAlpha || c.isDigit || c = '.' || c = '_' || c = '%' || c = '+' || c = '-'

/-- Character class `[a-zA-Z0-9.-]` of the email regex domain part. -/
def isEmailDomainChar (c : Char) : Bool :=
  c.isAlpha || c.isDigit || c = '.' || c = '-'

/-- `utils.validate_email`: the anchored regex
`[a-zA-Z0-9._%+-]+@[a-zA-Z0-9.-]+\.[a-zA-Z]\x7b2,\x7d` holds of `s` iff
`s` splits as `local ++ "@" ++ domain` with a nonempty all-local-chars
local part, an all-domain-chars domain, and the segment after the last
dot of the domain all-alphabetic of length at least 2 with a nonempty
domain prefix before that dot. -/
def validate_email (s : String) : Bool :=
  let l := s.data.takeWhile (· ≠ '@')
  match s.data.dropWhile (· ≠ '@') with
  | [] => false
  | _ :: d =>
    let rt := d.reverse.takeWhile (· ≠ '.')
    let rr := d.reverse.dropWhile (· ≠ '.')
    decide (l ≠ []) && l.all isEmailLocalChar &&
    d.all isEmailDomainChar &&
    decide (2 ≤ rt.length) && rt.all Char.isAlpha &&
    decide (rr.length ≥ 2)

/-- `utils.validate_password`: ≥ 8 chars, one uppercase, one lowercase,
one digit; returns the validity flag and the message. -/
def validate_password (password : String) : Bool × String :=
  if password.length < 8 then
    (false, "Password must be at least 8 characters")
  else if !password.data.any Char.isUpper then
    (false, "Password must contain an uppercase letter")
  else if !password.data.any Char.isLower then
    (false, "Password must contain a lowercase letter")
  else if !password.data.any Char.isDigit then
    (false, "Password must contain a number")
  else
    (true, "Valid")

/-- Row of the `users` table (`models.User`). -/
structure User where
  id : Nat
  name : String
  email : String
  password_hash : String
  role : String
  created_at : Nat
deriving DecidableEq, Repr

/-- Row of the `classes` table (`models.Class`). -/
structure Class where
  id : Nat
  name : String
  subject : String
  grade : Option String
  description : Option String
  passcode : String
  owner_id : Nat
  created_at : Nat
deriving DecidableEq, Repr

/-- Row of the `assignments` table (`models.Assignment`). -/
structure Assignment where
  id : Nat
  title : String
  description : Option String
  due_date : Option Nat
  class_id : Nat
  created_at : Nat
deriving DecidableEq, Repr

/-- Row of the `submissions` table (`models.Submission`). -/
structure Submission where
  id : Nat
  content : Option String
  file_name : Option String
  file_size : Option Nat
  student_id : Nat
  assignment_id : Nat
  submitted_at : Nat
  grade : Option String
  feedback : Option String
  graded_at : Option Nat
deriving DecidableEq, Repr

/-- Row of the `peer_reviews` table (`models.PeerReview`). -/
structure PeerReview where
  id : Nat
  content : String
  reviewer_id : Nat
  submission_id : Nat
  created_at : Nat
deriving DecidableEq, Repr

/-- The whole persistent state: the five tables, the `class_students`
association table (pairs `(class_id, user_id)`), and the autoincrement
counters of the primary keys. -/
structure DB where
  users : List User := []
  classes : List Class := []
  class_students : List (Nat × Nat) := []
  assignments : List Assignment := []
  submissions : List Submission := []
  peer_reviews : List PeerReview := []
  next_user_id : Nat := 1
  next_class_id : Nat := 1
  next_assignment_id : Nat := 1
  next_submission_id : Nat := 1
  next_review_id : Nat := 1
deriving DecidableEq, Repr

/-- The empty database. -/
def DB.empty : DB := {}

/-- HTTP-style response: an error with status and message, or a success
with status and payload. -/
inductive Outcome (α : Type) where
  | err (status : Nat) (msg : String)
  | ok (status : Nat) (val : α)
deriving DecidableEq, Repr

/-- The HTTP status of an outcome. -/
def Outcome.status : Outcome α → Nat
  | .err s _ => s
  | .ok s _ => s

/-- `db.session.get(User, uid)`. -/
def DB.getUser (db : DB) (uid : Nat) : Option User :=
  db.users.find? (fun u => u.id = uid)

/-- `db.session.get(Class, cid)`. -/
def DB.getClassRow (db : DB) (cid : Nat) : Option Class :=
  db.classes.find? (fun c => c.id = cid)

/-- `db.session.get(Assignment, aid)`. -/
def DB.getAssignment (db : DB) (aid : Nat) : Option Assignment :=
  db.assignments.find? (fun a => a.id = aid)

/-- `db.session.get(Submission, sid)`. -/
def DB.getSubmission (db : DB) (sid : Nat) : Option Submission :=
  db.submissions.find? (fun s => s.id = sid)

/-- `user in cls.students`: the association table holds the pair. -/
def DB.enrolled (db : DB) (cid uid : Nat) : Bool :=
  db.class_students.contains (cid, uid)

/-- `user.enrolled_classes`: classes whose roster has the user. -/
def DB.enrolledClasses (db : DB) (uid : Nat) : List Class :=
  db.classes.filter (fun c => db.enrolled c.id uid)

/-- `cls.assignments`. -/
def DB.classAssignments (db : DB) (cid : Nat) : List Assignment :=
  db.assignments.filter (fun a => a.class_id = cid)

/-- `assignment.submissions`. -/
def DB.assignmentSubmissions (db : DB) (aid : Nat) : List Submission :=
  db.submissions.filter (fun s => s.assignment_id = aid)

/-- `submission.peer_reviews`. -/
def DB.submissionReviews (db : DB) (sid : Nat) : List PeerReview :=
  db.peer_reviews.filter (fun r => r.submission_id = sid)

/-- `cls.students`: the enrolled user rows. -/
def DB.classStudents (db : DB) (cid : Nat) : List User :=
  db.users.filter (fun u => db.enrolled cid u.id)

/-- `PeerReview.query.filter_by(reviewer_id=uid, submission_id=sid).first()`. -/
def DB.findReview (db : DB) (uid sid : Nat) : Option PeerReview :=
  db.peer_reviews.find? (fun r => r.reviewer_id = uid && r.submission_id = sid)

/-- The `@student_required` decorator of `utils.py`: the acting user must
exist and have role `student`; otherwise 403. -/
def requireStudent (db : DB) (uid : Nat) : Option User :=
  match db.getUser uid with
  | none => none
  | some u => if u.role = "student" then some u else none

/-- The `@teacher_required` decorator of `utils.py`. -/
def requireTeacher (db : DB) (uid : Nat) : Option User :=
  match db.getUser uid with
  | none => none
  | some u => if u.role = "teacher" then some u else none

/-- `User.to_dict`. -/
structure UserDict where
  id : Nat
  name : String
  email : String
  role : String
  createdAt : Nat
deriving DecidableEq, Repr

/-- `PeerReview.to_dict`. -/
structure ReviewDict where
  id : Nat
  content : String
  reviewerId : Nat
  reviewerName : Option String
  submissionId : Nat
  createdAt : Nat
deriving DecidableEq, Repr

/-- `Submission.to_dict`; `peerReviews` is present iff `include_reviews`. -/
structure SubmissionDict where
  id : Nat
  content : Option String
  fileName : Option String
  fileSize : Option Nat
  studentId : Nat
  studentName : Option String
  assignmentId : Nat
  submittedAt : Nat
  grade : Option String
  feedback : Option String
  gradedAt : Option Nat
  peerReviews : Option (List ReviewDict)
deriving DecidableEq, Repr

/-- `Assignment.to_dict`; `submissions` is present iff `include_submissions`. -/
structure AssignmentDict where
  id : Nat
  title : String
  description : Option String
  dueDate : Option Nat
  classId : Nat
  submissionCount : Nat
  createdAt : Nat
  submissions : Option (List SubmissionDict)
deriving DecidableEq, Repr

/-- `Class.to_dict`; `passcode`, `students`, `assignments` are present iff
the corresponding `include_*` flag was set. -/
structure ClassDict where
  id : Nat
  name : String
  subject : String
  grade : Option String
  description : Option String
  ownerId : Nat
  ownerName : Option String
  studentCount : Nat
  createdAt : Nat
  passcode : Option String
  students : Option (List UserDict)
  assignments : Option (List AssignmentDict)
deriving DecidableEq, Repr

/-- `User.to_dict`. -/
def userToDict (u : User) : UserDict :=
  { id := u.id, name := u.name, email := u.email, role := u.role,
    createdAt := u.created_at }

/-- `PeerReview.to_dict` (`reviewerName` follows the `reviewer` backref). -/
def reviewToDict (db : DB) (r : PeerReview) : ReviewDict :=
  { id := r.id, content := r.content, reviewerId := r.reviewer_id,
    reviewerName := (db.getUser r.reviewer_id).map (·.name),
    submissionId := r.submission_id, createdAt := r.created_at }

/-- `Submission.to_dict` (`studentName` follows the `student` backref). -/
def submissionToDict (db : DB) (s : Submission) (include_reviews : Bool := false) :
    SubmissionDict :=
  { id := s.id, content := s.content, fileName := s.file_name,
    fileSize := s.file_size, studentId := s.student_id,
    studentName := (db.getUser s.student_id).map (·.name),
    assignmentId := s.assignment_id, submittedAt := s.submitted_at,
    grade := s.grade, feedback := s.feedback, gradedAt := s.graded_at,
    peerReviews :=
      if include_reviews then some ((db.submissionReviews s.id).map (reviewToDict db))
      else none }

/-- `Assignment.to_dict`. -/
def assignmentToDict (db : DB) (a : Assignment) (include_submissions : Bool := false) :
    AssignmentDict :=
  { id := a.id, title := a.title, description := a.description,
    dueDate := a.due_date, classId := a.class_id,
    submissionCount := (db.assignmentSubmissions a.id).length,
    createdAt := a.created_at,
    submissions :=
      if include_submissions then
        some ((db.assignmentSubmissions a.id).map (fun s => submissionToDict db s true))
      else none }

/-- `Class.to_dict`. -/
def classToDict (db : DB) (c : Class) (include_passcode : Bool := false)
    (include_students : Bool := false) (include_assignments : Bool := false) :
    ClassDict :=
  { id := c.id, name := c.name, subject := c.subject, grade := c.grade,
    description := c.description, ownerId := c.owner_id,
    ownerName := (db.getUser c.owner_id).map (·.name),
    studentCount := (db.classStudents c.id).length,
    createdAt := c.created_at,
    passcode := if include_passcode then some c.passcode else none,
    students :=
      if include_students then some ((db.classStudents c.id).map userToDict)
      else none,
    assignments :=
      if include_assignments then
        some ((db.classAssignments c.id).map (fun a => assignmentToDict db a true))
      else none }

/-- `routes/auth.py::register`. `hashF` is the bcrypt hash collaborator;
`now` the creation clock reading. Checks, in source order: role, email
format, password strength, duplicate email; then inserts the user with
the stripped-and-lowercased email and the hashed password. -/
def register (hashF : String → String) (db : DB)
    (name0 email0 password role0 : String) (now : Nat) :
    Outcome UserDict × DB :=
  let name := pyStrip name0
  let email := pyLower (pyStrip email0)
  let role := pyLower (pyStrip role0)
  if role ≠ "teacher" ∧ role ≠ "student" then
    (.err 400 "Role must be teacher or student", db)
  else if !validate_email email then
    (.err 400 "Invalid email format", db)
  else if !(validate_password password).1 then
    (.err 400 (validate_password password).2, db)
  else if (db.users.find? (fun u => u.email = email)).isSome then
    (.err 409 "Email already registered", db)
  else
    let user : User :=
      { id := db.next_user_id, name := name, email := email,
        password_hash := hashF password, role := role, created_at := now }
    (.ok 201 (userToDict user),
     { db with users := db.users ++ [user], next_user_id := db.next_user_id + 1 })

/-- `routes/auth.py::login`. `checkF hash plain` is the bcrypt check
collaborator. The single failure branch `if not user or not
bcrypt.check_password_hash(...)` yields one fixed 401 response. -/
def login (checkF : String → String → Bool) (db : DB)
    (email0 password : String) : Outcome UserDict × DB :=
  let email := pyLower (pyStrip email0)
  match db.users.find? (fun u => u.email = email) with
  | none => (.err 401 "Invalid email or password", db)
  | some user =>
    if !checkF user.password_hash password then
      (.err 401 "Invalid email or password", db)
    else
      (.ok 200 (userToDict user), db)

/-- `routes/classes.py::create_class` (`@teacher_required`). `passcode`
stands for the random 6-character passcode collaborator value. -/
def create_class (db : DB) (uid : Nat) (name subject : String)
    (grade description : Option String) (passcode : String) (now : Nat) :
    Outcome ClassDict × DB :=
  match requireTeacher db uid with
  | none => (.err 403 "Teacher access required", db)
  | some _ =>
    let cls : Class :=
      { id := db.next_class_id, name := pyStrip name, subject := pyStrip subject,
        grade := pyStripOpt (grade.getD ""),
        description := pyStripOpt (description.getD ""),
        passcode := passcode, owner_id := uid, created_at := now }
    let db2 := { db with classes := db.classes ++ [cls],
                         next_class_id := db.next_class_id + 1 }
    (.ok 201 (classToDict db2 cls true), db2)

/-- `routes/classes.py::get_class` (`@jwt_required` only: any role). -/
def get_class (db : DB) (uid cid : Nat) : Outcome ClassDict × DB :=
  let user := db.getUser uid
  match db.getClassRow cid with
  | none => (.err 404 "Class not found", db)
  | some cls =>
    let is_owner : Bool := cls.owner_id = uid
    let is_student : Bool :=
      match user with
      | some u => db.enrolled cid u.id
      | none => false
    if !is_owner && !is_student then
      (.err 403 "Access denied", db)
    else
      (.ok 200 (classToDict db cls is_owner is_owner true), db)

/-- The delete cascade declared in `models.py`
(`Class.assignments`, `Assignment.submissions`, `Submission.peer_reviews`,
each `cascade="all, delete-orphan"`, and the `class_students` secondary
rows): removing a class removes its assignments, their submissions,
their peer reviews, and its roster rows. -/
def deleteClassCascade (db : DB) (cid : Nat) : DB :=
  let deadAsg := db.assignments.filter (fun a => a.class_id = cid)
  let deadSub := db.submissions.filter
    (fun s => deadAsg.any (fun a => a.id = s.assignment_id))
  { db with
    classes := db.classes.filter (fun c => c.id ≠ cid),
    class_students := db.class_students.filter (fun p => p.1 ≠ cid),
    assignments := db.assignments.filter (fun a => a.class_id ≠ cid),
    submissions := db.submissions.filter
      (fun s => !deadAsg.any (fun a => a.id = s.assignment_id)),
    peer_reviews := db.peer_reviews.filter
      (fun r => !deadSub.any (fun s => s.id = r.submission_id)) }

/-- `routes/classes.py::delete_class` (`@teacher_required`). -/
def delete_class (db : DB) (uid cid : Nat) : Outcome String × DB :=
  match requireTeacher db uid with
  | none => (.err 403 "Teacher access required", db)
  | some _ =>
    match db.getClassRow cid with
    | none => (.err 404 "Class not found", db)
    | some cls =>
      if cls.owner_id ≠ uid then
        (.err 403 "Only the class owner can delete it", db)
      else
        (.ok 200 "Class deleted successfully", deleteClassCascade db cid)

/-- `routes/classes.py::join_class` (`@student_required`). -/
def join_class (db : DB) (uid cid : Nat) (passcode : String) :
    Outcome ClassDict × DB :=
  match requireStudent db uid with
  | none => (.err 403 "Student access required", db)
  | some _ =>
    match db.getClassRow cid with
    | none => (.err 404 "Class not found", db)
    | some cls =>
      if cls.passcode ≠ pyStrip passcode then
        (.err 401 "Invalid passcode", db)
      else if db.enrolled cid uid then
        (.err 409 "Already enrolled in this class", db)
      else
        let db2 := { db with class_students := db.class_students ++ [(cid, uid)] }
        (.ok 200 (classToDict db2 cls), db2)

/-- `routes/classes.py::leave_class` (`@student_required`). -/
def leave_class (db : DB) (uid cid : Nat) : Outcome String × DB :=
  match requireStudent db uid with
  | none => (.err 403 "Student access required", db)
  | some _ =>
    match db.getClassRow cid with
    | none => (.err 404 "Class not found", db)
    | some _ =>
      if !db.enrolled cid uid then
        (.err 400 "Not enrolled in this class", db)
      else
        (.ok 200 "Left class successfully",
         { db with class_students := db.class_students.erase (cid, uid) })

/-- `routes/assignments.py::create_assignment` (`@teacher_required`).
`due` stands for the `_parse_date(data.get("dueDate"))` collaborator
result. -/
def create_assignment (db : DB) (uid cid : Nat) (title : String)
    (description : Option String) (due : Option Nat) (now : Nat) :
    Outcome AssignmentDict × DB :=
  match requireTeacher db uid with
  | none => (.err 403 "Teacher access required", db)
  | some _ =>
    match db.getClassRow cid with
    | none => (.err 404 "Class not found", db)
    | some cls =>
      if cls.owner_id ≠ uid then
        (.err 403 "Only the class owner can create assignments", db)
      else
        let a : Assignment :=
          { id := db.next_assignment_id, title := pyStrip title,
            description := pyStripOpt (description.getD ""),
            due_date := due, class_id := cid, created_at := now }
        let db2 := { db with assignments := db.assignments ++ [a],
                             next_assignment_id := db.next_assignment_id + 1 }
        (.ok 201 (assignmentToDict db2 a), db2)

/-- `routes/assignments.py::update_assignment` (`@teacher_required`);
partial-field update: a `none` argument means the field is absent from
the request body. -/
def update_assignment (db : DB) (uid cid aid : Nat)
    (title description : Option String) (due : Option (Option Nat)) :
    Outcome AssignmentDict × DB :=
  match requireTeacher db uid with
  | none => (.err 403 "Teacher access required", db)
  | some _ =>
    match db.getClassRow cid with
    | none => (.err 403 "Access denied", db)
    | some cls =>
      if cls.owner_id ≠ uid then
        (.err 403 "Access denied", db)
      else
        match db.getAssignment aid with
        | none => (.err 404 "Assignment not found", db)
        | some a =>
          if a.class_id ≠ cid then
            (.err 404 "Assignment not found", db)
          else
            let a2 : Assignment :=
              { a with
                title := (match title with | some t => pyStrip t | none => a.title),
                description := (match description with
                  | some d => pyStripOpt d
                  | none => a.description),
                due_date := due.getD a.due_date }
            let asgs2 := db.assignments.map (fun x => if x.id = aid then a2 else x)
            let db2 := { db with assignments := asgs2 }
            (.ok 200 (assignmentToDict db2 a2), db2)

/-- The delete cascade beneath one assignment: its submissions and their
peer reviews go with it. -/
def deleteAssignmentCascade (db : DB) (aid : Nat) : DB :=
  let deadSub := db.submissions.filter (fun s => s.assignment_id = aid)
  { db with
    assignments := db.assignments.filter (fun a => a.id ≠ aid),
    submissions := db.submissions.filter (fun s => s.assignment_id ≠ aid),
    peer_reviews := db.peer_reviews.filter
      (fun r => !deadSub.any (fun s => s.id = r.submission_id)) }

/-- `routes/assignments.py::delete_assignment` (`@teacher_required`). -/
def delete_assignment (db : DB) (uid cid aid : Nat) : Outcome String × DB :=
  match requireTeacher db uid with
  | none => (.err 403 "Teacher access required", db)
  | some _ =>
    match db.getClassRow cid with
    | none => (.err 403 "Access denied", db)
    | some cls =>
      if cls.owner_id ≠ uid then
        (.err 403 "Access denied", db)
      else
        match db.getAssignment aid with
        | none => (.err 404 "Assignment not found", db)
        | some a =>
          if a.class_id ≠ cid then
            (.err 404 "Assignment not found", db)
          else
            (.ok 200 "Assignment deleted", deleteAssignmentCascade db aid)

/-- The submission-chain check shared by the submission and peer-review
routes: `submission.assignment_id == aid and submission.assignment.class_id
== cid`. A dangling `assignment_id` cannot arise under the foreign-key
cascades; the model maps it to the same not-found outcome. -/
def chainOk (db : DB) (s : Submission) (cid aid : Nat) : Bool :=
  s.assignment_id = aid &&
    (match db.getAssignment s.assignment_id with
     | some a => a.class_id = cid
     | none => false)

/-- `routes/submissions.py::create_submission` (`@student_required`). -/
def create_submission (db : DB) (uid cid aid : Nat)
    (content fileName : Option String) (fileSize : Option Nat) (now : Nat) :
    Outcome SubmissionDict × DB :=
  match requireStudent db uid with
  | none => (.err 403 "Student access required", db)
  | some _ =>
    match db.getClassRow cid with
    | none => (.err 404 "Class not found", db)
    | some _ =>
      if !db.enrolled cid uid then
        (.err 403 "Not enrolled in this class", db)
      else
        match db.getAssignment aid with
        | none => (.err 404 "Assignment not found", db)
        | some a =>
          if a.class_id ≠ cid then
            (.err 404 "Assignment not found", db)
          else if (db.submissions.find?
              (fun s => s.student_id = uid && s.assignment_id = aid)).isSome then
            (.err 409 "Already submitted. Use PUT to edit.", db)
          else
            let s : Submission :=
              { id := db.next_submission_id,
                content := pyStripOpt (content.getD ""),
                file_name := fileName, file_size := fileSize,
                student_id := uid, assignment_id := aid, submitted_at := now,
                grade := none, feedback := none, graded_at := none }
            let db2 := { db with submissions := db.submissions ++ [s],
                                 next_submission_id := db.next_submission_id + 1 }
            (.ok 201 (submissionToDict db2 s), db2)

/-- `routes/submissions.py::update_submission` (`@student_required`);
a `none` argument means the field is absent from the request body. -/
def update_submission (db : DB) (uid cid aid sid : Nat)
    (content fileName : Option String) (fileSize : Option (Option Nat))
    (now : Nat) : Outcome SubmissionDict × DB :=
  match requireStudent db uid with
  | none => (.err 403 "Student access required", db)
  | some _ =>
    match db.getSubmission sid with
    | none => (.err 404 "Submission not found", db)
    | some s =>
      if !chainOk db s cid aid then
        (.err 404 "Submission not found", db)
      else if s.student_id ≠ uid then
        (.err 403 "Cannot edit the submission of another student", db)
      else
        let s2 : Submission :=
          { s with
            content := (match content with
              | some c => pyStripOpt c
              | none => s.content),
            file_name := (match fileName with
              | some f => some f
              | none => s.file_name),
            file_size := fileSize.getD s.file_size,
            submitted_at := now }
        let subs2 := db.submissions.map (fun x => if x.id = sid then s2 else x)
        let db2 := { db with submissions := subs2 }
        (.ok 200 (submissionToDict db2 s2), db2)

/-- `routes/submissions.py::delete_submission` (`@student_required`);
removing a submission cascades to its peer reviews. -/
def delete_submission (db : DB) (uid cid aid sid : Nat) : Outcome String × DB :=
  match requireStudent db uid with
  | none => (.err 403 "Student access required", db)
  | some _ =>
    match db.getSubmission sid with
    | none => (.err 404 "Submission not found", db)
    | some s =>
      if !chainOk db s cid aid then
        (.err 404 "Submission not found", db)
      else if s.student_id ≠ uid then
        (.err 403 "Cannot withdraw the submission of another student", db)
      else
        let db2 := { db with
          submissions := db.submissions.filter (fun x => x.id ≠ sid),
          peer_reviews := db.peer_reviews.filter (fun r => r.submission_id ≠ sid) }
        (.ok 200 "Submission withdrawn", db2)

/-- `routes/submissions.py::grade_submission` (`@teacher_required`). -/
def grade_submission (db : DB) (uid cid aid sid : Nat)
    (grade : String) (feedback : Option String) (now : Nat) :
    Outcome SubmissionDict × DB :=
  match requireTeacher db uid with
  | none => (.err 403 "Teacher access required", db)
  | some _ =>
    match db.getClassRow cid with
    | none => (.err 403 "Access denied", db)
    | some cls =>
      if cls.owner_id ≠ uid then
        (.err 403 "Access denied", db)
      else
        match db.getSubmission sid with
        | none => (.err 404 "Submission not found", db)
        | some s =>
          if !chainOk db s cid aid then
            (.err 404 "Submission not found", db)
          else
            let s2 : Submission :=
              { s with grade := some (pyStrip grade),
                       feedback := pyStripOpt (feedback.getD ""),
                       graded_at := some now }
            let subs2 := db.submissions.map (fun x => if x.id = sid then s2 else x)
            let db2 := { db with submissions := subs2 }
            (.ok 200 (submissionToDict db2 s2), db2)

/-- `routes/peer_reviews.py::create_peer_review` (`@student_required`).
Checks, in source order: class exists, caller enrolled, submission chain,
no self-review, no duplicate review. -/
def create_peer_review (db : DB) (uid cid aid sid : Nat) (content : String)
    (now : Nat) : Outcome ReviewDict × DB :=
  match requireStudent db uid with
  | none => (.err 403 "Student access required", db)
  | some u =>
    match db.getClassRow cid with
    | none => (.err 404 "Class not found", db)
    | some _ =>
      if !db.enrolled cid u.id then
        (.err 403 "Not enrolled in this class", db)
      else
        match db.getSubmission sid with
        | none => (.err 404 "Submission not found", db)
        | some s =>
          if !chainOk db s cid aid then
            (.err 404 "Submission not found", db)
          else if s.student_id = uid then
            (.err 400 "Cannot review your own submission", db)
          else if (db.findReview uid sid).isSome then
            (.err 409 "You have already reviewed this submission", db)
          else
            let r : PeerReview :=
              { id := db.next_review_id, content := pyStrip content,
                reviewer_id := uid, submission_id := sid, created_at := now }
            let db2 := { db with peer_reviews := db.peer_reviews ++ [r],
                                 next_review_id := db.next_review_id + 1 }
            (.ok 201 (reviewToDict db2 r), db2)

/-- One entry of the pending-reviews response: the class summary, the
assignment summary and the submission detail. -/
structure PendingItem where
  classId : Nat
  className : String
  assignmentId : Nat
  assignmentTitle : String
  submission : SubmissionDict
deriving DecidableEq, Repr

/-- The entry built for one eligible submission. -/
def mkPendingItem (db : DB) (c : Class) (a : Assignment) (s : Submission) :
    PendingItem :=
  { classId := c.id, className := c.name,
    assignmentId := a.id, assignmentTitle := a.title,
    submission := submissionToDict db s }

/-- The triple loop of `get_pending_reviews`: for each enrolled class,
each of its assignments, each of that assignment's submissions, skip own
submissions and already-reviewed ones, else emit an entry. -/
def pendingList (db : DB) (uid : Nat) : List PendingItem :=
  (db.enrolledClasses uid).flatMap fun c =>
    (db.classAssignments c.id).flatMap fun a =>
      (db.assignmentSubmissions a.id).flatMap fun s =>
        if s.student_id = uid then []
        else if (db.findReview uid s.id).isSome then []
        else [mkPendingItem db c a s]

/-- `routes/peer_reviews.py::get_pending_reviews` (`@student_required`);
a read-only aggregate returning the state unchanged. -/
def get_pending_reviews (db : DB) (uid : Nat) : Outcome (List PendingItem) × DB :=
  match requireStudent db uid with
  | none => (.err 403 "Student access required", db)
  | some _ =>
    match db.getUser uid with
    | none => (.err 404 "User not found", db)
    | some _ => (.ok 200 (pendingList db uid), db)

/-- One request against the API: every state-touching route of the
backend, with the acting user, the request body fields, and the
collaborator inputs (clock reading, generated passcode) as payload. -/
inductive Op where
  | register (name email password role : String) (now : Nat)
  | login (email password : String)
  | createClass (uid : Nat) (name subject : String)
      (grade description : Option String) (passcode : String) (now : Nat)
  | getClass (uid cid : Nat)
  | deleteClass (uid cid : Nat)
  | joinClass (uid cid : Nat) (passcode : String)
  | leaveClass (uid cid : Nat)
  | createAssignment (uid cid : Nat) (title : String)
      (description : Option String) (due : Option Nat) (now : Nat)
  | updateAssignment (uid cid aid : Nat) (title description : Option String)
      (due : Option (Option Nat))
  | deleteAssignment (uid cid aid : Nat)
  | createSubmission (uid cid aid : Nat) (content fileName : Option String)
      (fileSize : Option Nat) (now : Nat)
  | updateSubmission (uid cid aid sid : Nat) (content fileName : Option String)
      (fileSize : Option (Option Nat)) (now : Nat)
  | deleteSubmission (uid cid aid sid : Nat)
  | gradeSubmission (uid cid aid sid : Nat) (grade : String)
      (feedback : Option String) (now : Nat)
  | createPeerReview (uid cid aid sid : Nat) (content : String) (now : Nat)
  | getPendingReviews (uid : Nat)
deriving DecidableEq, Repr

/-- The state after handling one request (`hashF` and `checkF` are the
bcrypt collaborators used by `register` and `login`). -/
def applyOp (hashF : String → String) (checkF : String → String → Bool)
    (db : DB) : Op → DB
  | .register name email password role now =>
      (register hashF db name email password role now).2
  | .login email password => (login checkF db email password).2
  | .createClass uid name subject grade description passcode now =>
      (create_class db uid name subject grade description passcode now).2
  | .getClass uid cid => (get_class db uid cid).2
  | .deleteClass uid cid => (delete_class db uid cid).2
  | .joinClass uid cid passcode => (join_class db uid cid passcode).2
  | .leaveClass uid cid => (leave_class db uid cid).2
  | .createAssignment uid cid title description due now =>
      (create_assignment db uid cid title description due now).2
  | .updateAssignment uid cid aid title description due =>
      (update_assignment db uid cid aid title description due).2
  | .deleteAssignment uid cid aid => (delete_assignment db uid cid aid).2
  | .createSubmission uid cid aid content fileName fileSize now =>
      (create_submission db uid cid aid content fileName fileSize now).2
  | .updateSubmission uid cid aid sid content fileName fileSize now =>
      (update_submission db uid cid aid sid content fileName fileSize now).2
  | .deleteSubmission uid cid aid sid => (delete_submission db uid cid aid sid).2
  | .gradeSubmission uid cid aid sid grade feedback now =>
      (grade_submission db uid cid aid sid grade feedback now).2
  | .createPeerReview uid cid aid sid content now =>
      (create_peer_review db uid cid aid sid content now).2
  | .getPendingReviews uid => (get_pending_reviews db uid).2

/-- States reachable from the empty database by handling requests, for
any behaviour of the bcrypt collaborators. -/
inductive Reachable : DB → Prop where
  | empty : Reachable DB.empty
  | step (hashF : String → String) (checkF : String → String → Bool)
      (op : Op) {db : DB} :
      Reachable db → Reachable (applyOp hashF checkF db op)

/-- The user row inserted by a successful registration. -/
def regUser (hashF : String → String) (db : DB) (n e p r : String)
    (now : Nat) : User :=
  { id := db.next_user_id, name := pyStrip n, email := pyLower (pyStrip e),
    password_hash := hashF p, role := pyLower (pyStrip r), created_at := now }

/-- The submission row inserted by a successful `create_submission`. -/
def newSubmission (db : DB) (uid aid : Nat) (content fileName : Option String)
    (fileSize : Option Nat) (now : Nat) : Submission :=
  { id := db.next_submission_id, content := pyStripOpt (content.getD ""),
    file_name := fileName, file_size := fileSize,
    student_id := uid, assignment_id := aid, submitted_at := now,
    grade := none, feedback := none, graded_at := none }

/-- Two submission rows are compatible when they differ in primary key
and do not collide on the `(student_id, assignment_id)` pair. -/
def SubRel (s t : Submission) : Prop :=
  s.id ≠ t.id ∧ (s.student_id ≠ t.student_id ∨ s.assignment_id ≠ t.assignment_id)

/-- The inductive invariant: submissions are pairwise compatible and all
their ids are below the autoincrement counter. -/
def SubInv (db : DB) : Prop :=
  db.submissions.Pairwise SubRel ∧
    ∀ s ∈ db.submissions, s.id < db.next_submission_id

/-- The inductive invariant on the user table: every stored email has no
uppercase letter (it is fixed by lowercasing), and emails are pairwise
distinct. -/
def UserInv (db : DB) : Prop :=
  (∀ u ∈ db.users, pyLower u.email = u.email) ∧
    db.users.Pairwise (fun u v => u.email ≠ v.email)

/-! ### Concrete fixtures for witnesses and counterexamples -/

/-- A teacher account. -/
def fxTeacher : User :=
  { id := 1, name := "T", email := "t@x.com", password_hash := "h",
    role := "teacher", created_at := 0 }

/-- A student account that authored the fixture submission. -/
def fxStudent2 : User :=
  { id := 2, name := "S2", email := "s2@x.com", password_hash := "h",
    role := "student", created_at := 0 }

/-- A second student account. -/
def fxStudent3 : User :=
  { id := 3, name := "S3", email := "s3@x.com", password_hash := "h",
    role := "student", created_at := 0 }

/-- A class owned by the teacher. -/
def fxClass : Class :=
  { id := 1, name := "Bio", subject := "bio", grade := none,
    description := none, passcode := "ABC123", owner_id := 1, created_at := 0 }

/-- An assignment in the fixture class. -/
def fxAsg : Assignment :=
  { id := 1, title := "Lab", description := none, due_date := none,
    class_id := 1, created_at := 0 }

/-- A submission by student 2 for the fixture assignment. -/
def fxSub : Submission :=
  { id := 1, content := some "r", file_name := none, file_size := none,
    student_id := 2, assignment_id := 1, submitted_at := 0,
    grade := none, feedback := none, graded_at := none }

/-- Fixture state: both students enrolled, one submission, no reviews. -/
def fxDB : DB :=
  { users := [fxTeacher, fxStudent2, fxStudent3], classes := [fxClass],
    class_students := [(1, 2), (1, 3)], assignments := [fxAsg],
    submissions := [fxSub], peer_reviews := [],
    next_user_id := 4, next_class_id := 2, next_assignment_id := 2,
    next_submission_id := 2, next_review_id := 2 }

/-- Fixture state after student 2 left the class: their submission
remains but they are no longer enrolled. -/
def fxDBLeft : DB := { fxDB with class_students := [(1, 3)] }

/-- Fixture hash collaborator. -/
def fxHash : String → String := fun _ => "h"

/-- Fixture bcrypt check collaborator: accepts the fixture hash with the
fixture password. -/
def fxCheck : String → String → Bool := fun h p => h = "h" && p = "Passw0rd"


/-! ### State-effect characterizations of the route handlers

One lemma per route, describing every state a handler can leave behind:
either the input state (any error branch) or the explicitly written
successful update, together with the guard the success branch checked. -/

theorem register_state (hashF : String → String) (db : DB)
    (n e p r : String) (now : Nat) :
    (register hashF db n e p r now).2 = db ∨
      ((db.users.find? (fun u => u.email = pyLower (pyStrip e))) = none ∧
       (register hashF db n e p r now).2 =
         { db with users := db.users ++ [regUser hashF db n e p r now],
                   next_user_id := db.next_user_id + 1 }) := by
  unfold register regUser
  try dsimp only
  repeat' split
  all_goals first
    | (left; rfl)
    | (rename_i h
       right
       exact ⟨Option.not_isSome_iff_eq_none.mp (by simpa using h), rfl⟩)

theorem login_state (checkF : String → String → Bool) (db : DB)
    (e p : String) : (login checkF db e p).2 = db := by
  unfold login
  try dsimp only
  repeat' split
  all_goals rfl

theorem create_class_state (db : DB) (uid : Nat) (name subject : String)
    (grade description : Option String) (passcode : String) (now : Nat) :
    (create_class db uid name subject grade description passcode now).2 = db ∨
      (create_class db uid name subject grade description passcode now).2 =
        { db with
            classes := db.classes ++
              [{ id := db.next_class_id, name := pyStrip name,
                 subject := pyStrip subject, grade := pyStripOpt (grade.getD ""),
                 description := pyStripOpt (description.getD ""),
                 passcode := passcode, owner_id := uid, created_at := now }],
            next_class_id := db.next_class_id + 1 } := by
  unfold create_class
  try dsimp only
  repeat' split
  · left; rfl
  · right; rfl

theorem get_class_state (db : DB) (uid cid : Nat) :
    (get_class db uid cid).2 = db := by
  unfold get_class
  try dsimp only
  repeat' split
  all_goals rfl

theorem delete_class_state (db : DB) (uid cid : Nat) :
    (delete_class db uid cid).2 = db ∨
      (delete_class db uid cid).2 = deleteClassCascade db cid := by
  unfold delete_class
  try dsimp only
  repeat' split
  all_goals first | (left; rfl) | (right; rfl)

theorem join_class_state (db : DB) (uid cid : Nat) (passcode : String) :
    (join_class db uid cid passcode).2 = db ∨
      (join_class db uid cid passcode).2 =
        { db with class_students := db.class_students ++ [(cid, uid)] } := by
  unfold join_class
  try dsimp only
  repeat' split
  all_goals first | (left; rfl) | (right; rfl)

theorem leave_class_state (db : DB) (uid cid : Nat) :
    (leave_class db uid cid).2 = db ∨
      (leave_class db uid cid).2 =
        { db with class_students := db.class_students.erase (cid, uid) } := by
  unfold leave_class
  try dsimp only
  repeat' split
  all_goals first | (left; rfl) | (right; rfl)

theorem create_assignment_state (db : DB) (uid cid : Nat) (title : String)
    (description : Option String) (due : Option Nat) (now : Nat) :
    (create_assignment db uid cid title description due now).2 = db ∨
      (create_assignment db uid cid title description due now).2 =
        { db with
            assignments := db.assignments ++
              [{ id := db.next_assignment_id, title := pyStrip title,
                 description := pyStripOpt (description.getD ""),
                 due_date := due, class_id := cid, created_at := now }],
            next_assignment_id := db.next_assignment_id + 1 } := by
  unfold create_assignment
  try dsimp only
  repeat' split
  all_goals first | (left; rfl) | (right; rfl)

theorem update_assignment_state (db : DB) (uid cid aid : Nat)
    (title description : Option String) (due : Option (Option Nat)) :
    (update_assignment db uid cid aid title description due).2 = db ∨
      ∃ a2 : Assignment,
        (update_assignment db uid cid aid title description due).2 =
          { db with assignments :=
              db.assignments.map (fun x => if x.id = aid then a2 else x) } := by
  unfold update_assignment
  try dsimp only
  repeat' split
  all_goals first | (left; rfl) | (right; exact ⟨_, rfl⟩)

theorem delete_assignment_state (db : DB) (uid cid aid : Nat) :
    (delete_assignment db uid cid aid).2 = db ∨
      (delete_assignment db uid cid aid).2 = deleteAssignmentCascade db aid := by
  unfold delete_assignment
  try dsimp only
  repeat' split
  all_goals first | (left; rfl) | (right; rfl)

theorem create_submission_state (db : DB) (uid cid aid : Nat)
    (content fileName : Option String) (fileSize : Option Nat) (now : Nat) :
    (create_submission db uid cid aid content fileName fileSize now).2 = db ∨
      ((db.submissions.find?
          (fun s => s.student_id = uid && s.assignment_id = aid)) = none ∧
       (create_submission db uid cid aid content fileName fileSize now).2 =
         { db with
             submissions := db.submissions ++
               [newSubmission db uid aid content fileName fileSize now],
             next_submission_id := db.next_submission_id + 1 }) := by
  unfold create_submission newSubmission
  try dsimp only
  repeat' split
  all_goals first
    | (left; rfl)
    | (rename_i h
       right
       exact ⟨Option.not_isSome_iff_eq_none.mp (by simpa using h), rfl⟩)

theorem update_submission_state (db : DB) (uid cid aid sid : Nat)
    (content fileName : Option String) (fileSize : Option (Option Nat))
    (now : Nat) :
    (update_submission db uid cid aid sid content fileName fileSize now).2 = db ∨
      ∃ s s2 : Submission,
        db.getSubmission sid = some s ∧ s2.id = s.id ∧
        s2.student_id = s.student_id ∧ s2.assignment_id = s.assignment_id ∧
        (update_submission db uid cid aid sid content fileName fileSize now).2 =
          { db with submissions :=
              db.submissions.map (fun x => if x.id = sid then s2 else x) } := by
  unfold update_submission
  try dsimp only
  split
  · left; rfl
  split
  · left; rfl
  rename_i s hs
  split
  · left; rfl
  split
  · left; rfl
  right
  refine ⟨s, { s with
      content := (match content with | some c => pyStripOpt c | none => s.content),
      file_name := (match fileName with | some f => some f | none => s.file_name),
      file_size := fileSize.getD s.file_size,
      submitted_at := now }, hs, rfl, rfl, rfl, rfl⟩

theorem delete_submission_state (db : DB) (uid cid aid sid : Nat) :
    (delete_submission db uid cid aid sid).2 = db ∨
      (delete_submission db uid cid aid sid).2 =
        { db with
            submissions := db.submissions.filter (fun x => x.id ≠ sid),
            peer_reviews := db.peer_reviews.filter
              (fun r => r.submission_id ≠ sid) } := by
  unfold delete_submission
  try dsimp only
  repeat' split
  all_goals first | (left; rfl) | (right; rfl)

theorem grade_submission_state (db : DB) (uid cid aid sid : Nat)
    (grade : String) (feedback : Option String) (now : Nat) :
    (grade_submission db uid cid aid sid grade feedback now).2 = db ∨
      ∃ s s2 : Submission,
        db.getSubmission sid = some s ∧ s2.id = s.id ∧
        s2.student_id = s.student_id ∧ s2.assignment_id = s.assignment_id ∧
        (grade_submission db uid cid aid sid grade feedback now).2 =
          { db with submissions :=
              db.submissions.map (fun x => if x.id = sid then s2 else x) } := by
  unfold grade_submission
  try dsimp only
  split
  · left; rfl
  split
  · left; rfl
  split
  · left; rfl
  split
  · left; rfl
  rename_i s hs
  split
  · left; rfl
  right
  refine ⟨s,
    { s with
        grade := some (pyStrip grade)
        feedback := pyStripOpt (feedback.getD "")
        graded_at := some now },
    hs, rfl, rfl, rfl, rfl⟩

theorem create_peer_review_state (db : DB) (uid cid aid sid : Nat)
    (content : String) (now : Nat) :
    (create_peer_review db uid cid aid sid content now).2 = db ∨
      (create_peer_review db uid cid aid sid content now).2 =
        { db with
            peer_reviews := db.peer_reviews ++
              [{ id := db.next_review_id, content := pyStrip content,
                 reviewer_id := uid, submission_id := sid, created_at := now }],
            next_review_id := db.next_review_id + 1 } := by
  unfold create_peer_review
  try dsimp only
  repeat' split
  all_goals first | (left; rfl) | (right; rfl)

theorem get_pending_reviews_state (db : DB) (uid : Nat) :
    (get_pending_reviews db uid).2 = db := by
  unfold get_pending_reviews
  try dsimp only
  repeat' split
  all_goals rfl

/-! ### Character and string lemmas for the email normalization -/

theorem char_toLower_not_isUpper (c : Char) : (Char.toLower c).isUpper = false := by
  by_cases h : 65 ≤ c.toNat ∧ c.toNat ≤ 90
  · have he : c.toLower = Char.ofNat (c.toNat + 32) := by
      simp [Char.toLower, h]
    rw [he]
    obtain ⟨h1, h2⟩ := h
    generalize c.toNat = n at h1 h2
    interval_cases n <;> decide
  · have he : c.toLower = c := by
      simp [Char.toLower]
      intro h1 h2
      exact absurd ⟨h1, h2⟩ h
    rw [he]
    simp only [Char.isUpper]
    rw [Bool.and_eq_false_iff]
    by_cases h1 : 65 ≤ c.val.toNat
    · right
      simp only [decide_eq_false_iff_not]
      intro hle
      exact h ⟨h1, hle⟩
    · left
      simp only [decide_eq_false_iff_not]
      exact h1

theorem char_toLower_idem (c : Char) :
    Char.toLower (Char.toLower c) = Char.toLower c := by
  by_cases h : 65 ≤ c.toNat ∧ c.toNat ≤ 90
  · have he : c.toLower = Char.ofNat (c.toNat + 32) := by
      simp [Char.toLower, h]
    rw [he]
    obtain ⟨h1, h2⟩ := h
    generalize c.toNat = n at h1 h2
    interval_cases n <;> decide
  · have he : c.toLower = c := by
      simp [Char.toLower]
      intro h1 h2
      exact absurd ⟨h1, h2⟩ h
    rw [he, he]

theorem pyLower_data (s : String) : (pyLower s).data = s.data.map Char.toLower := rfl

theorem pyLower_no_upper (s : String) :
    ∀ c ∈ (pyLower s).data, c.isUpper = false := by
  intro c hc
  rw [pyLower_data] at hc
  obtain ⟨x, _, rfl⟩ := List.mem_map.mp hc
  exact char_toLower_not_isUpper x

theorem pyLower_idem (s : String) : pyLower (pyLower s) = pyLower s := by
  unfold pyLower
  apply congrArg
  show (String.mk (s.data.map Char.toLower)).data.map Char.toLower = _
  simp only [List.map_map]
  exact List.map_congr_left (fun c _ => char_toLower_idem c)

/-! ### Generic list lemmas -/

/-- In a list pairwise-distinct on a key, the key determines the element. -/
theorem pairwise_key_inj {α β : Type} (key : α → β) {l : List α}
    (hp : l.Pairwise (fun a b => key a ≠ key b)) :
    ∀ x ∈ l, ∀ y ∈ l, key x = key y → x = y := by
  intro x hx y hy hxy
  induction l with
  | nil => exact absurd hx (List.not_mem_nil x)
  | cons h t ih =>
    rw [List.pairwise_cons] at hp
    rcases List.mem_cons.mp hx with hx1 | hx1
    · rcases List.mem_cons.mp hy with hy1 | hy1
      · rw [hx1, hy1]
      · rw [hx1] at hxy ⊢
        exact absurd hxy (hp.1 y hy1)
    · rcases List.mem_cons.mp hy with hy1 | hy1
      · rw [hy1] at hxy ⊢
        exact absurd hxy.symm (hp.1 x hx1)
      · exact ih hp.2 hx1 hy1

/-! ### The submission uniqueness invariant (claim C3 machinery) -/

theorem subInv_empty : SubInv DB.empty := by
  constructor
  · exact List.Pairwise.nil
  · intro s hs
    exact absurd hs (List.not_mem_nil s)

/-- A filter of the submission table keeps the invariant. -/
theorem subInv_filter {l : List Submission} {n : Nat} (p : Submission → Bool)
    (hp : l.Pairwise SubRel) (hb : ∀ s ∈ l, s.id < n) :
    (l.filter p).Pairwise SubRel ∧ ∀ s ∈ l.filter p, s.id < n := by
  refine ⟨hp.sublist (List.filter_sublist l), ?_⟩
  intro s hs
  exact hb s (List.mem_filter.mp hs).1

/-- Overwriting the row found at a primary key with a row of the same
id, student and assignment keeps the invariant. -/
theorem subInv_overwrite {l : List Submission} {n sid : Nat} {s s2 : Submission}
    (hp : l.Pairwise SubRel) (hb : ∀ x ∈ l, x.id < n)
    (hfind : l.find? (fun x => x.id = sid) = some s)
    (hid : s2.id = s.id) (hst : s2.student_id = s.student_id)
    (has : s2.assignment_id = s.assignment_id) :
    (l.map (fun x => if x.id = sid then s2 else x)).Pairwise SubRel ∧
      ∀ x ∈ l.map (fun x => if x.id = sid then s2 else x), x.id < n := by
  have hsid : s.id = sid := by simpa using List.find?_some hfind
  have hmem : s ∈ l := List.mem_of_find?_eq_some hfind
  have hinj := pairwise_key_inj (fun x => x.id) (hp.imp (fun h => h.1))
  have hkey : ∀ x ∈ l, x.id = sid → x = s := by
    intro x hx hxid
    exact hinj x hx s hmem (show x.id = s.id from hxid.trans hsid.symm)
  constructor
  · rw [List.pairwise_map]
    refine hp.imp_of_mem ?_
    intro a b ha hb0 hab
    by_cases hA : a.id = sid <;> by_cases hB : b.id = sid
    · exact absurd ((hkey a ha hA).trans (hkey b hb0 hB).symm)
        (by intro h; exact hab.1 (by rw [h]))
    · have ha2 : a = s := hkey a ha hA
      simp only [if_pos hA, if_neg hB]
      subst ha2
      exact ⟨by rw [hid]; exact hab.1, by
        rcases hab.2 with h | h
        · exact Or.inl (by rw [hst]; exact h)
        · exact Or.inr (by rw [has]; exact h)⟩
    · have hb2 : b = s := hkey b hb0 hB
      simp only [if_neg hA, if_pos hB]
      subst hb2
      exact ⟨by rw [hid]; exact hab.1, by
        rcases hab.2 with h | h
        · exact Or.inl (by rw [hst]; exact h)
        · exact Or.inr (by rw [has]; exact h)⟩
    · simp only [if_neg hA, if_neg hB]
      exact hab
  · intro x hx
    obtain ⟨y, hy, rfl⟩ := List.mem_map.mp hx
    by_cases hY : y.id = sid
    · simpa [if_pos hY, hid, hsid, ← hY] using hb y hy
    · simpa [if_neg hY] using hb y hy

/-- Appending a fresh row whose `(student, assignment)` pair is absent
keeps the invariant. -/
theorem subInv_append {l : List Submission} {n : Nat} {s2 : Submission}
    (hp : l.Pairwise SubRel) (hb : ∀ x ∈ l, x.id < n)
    (hfree : l.find? (fun x => x.student_id = s2.student_id &&
      x.assignment_id = s2.assignment_id) = none)
    (hid : s2.id = n) :
    (l ++ [s2]).Pairwise SubRel ∧ ∀ x ∈ l ++ [s2], x.id < n + 1 := by
  have hnone := List.find?_eq_none.mp hfree
  constructor
  · rw [List.pairwise_append]
    refine ⟨hp, List.pairwise_singleton _ _, ?_⟩
    intro a ha b hbm
    rw [List.mem_singleton] at hbm
    rw [hbm]
    refine ⟨by have h2 := hb a ha; omega, ?_⟩
    have hno := hnone a ha
    by_cases h1 : a.student_id = s2.student_id
    · right
      intro h2
      exact hno (by simp [h1, h2])
    · exact Or.inl h1
  · intro x hx
    rcases List.mem_append.mp hx with h | h
    · have h2 := hb x h; omega
    · rw [List.mem_singleton] at h
      rw [h, hid]
      omega

/-- Every request handler preserves the submission invariant. -/
theorem subInv_step (hashF : String → String) (checkF : String → String → Bool)
    (db : DB) (op : Op) (h : SubInv db) :
    SubInv (applyOp hashF checkF db op) := by
  obtain ⟨hp, hb⟩ := h
  cases op with
  | register n e p r now =>
    rcases register_state hashF db n e p r now with he | ⟨_, he⟩ <;>
      simp only [applyOp, he] <;> exact ⟨hp, hb⟩
  | login e p =>
    simp only [applyOp, login_state]
    exact ⟨hp, hb⟩
  | createClass uid nm sub g d pc now =>
    rcases create_class_state db uid nm sub g d pc now with he | he <;>
      simp only [applyOp, he] <;> exact ⟨hp, hb⟩
  | getClass uid cid =>
    simp only [applyOp, get_class_state]
    exact ⟨hp, hb⟩
  | deleteClass uid cid =>
    rcases delete_class_state db uid cid with he | he <;>
      simp only [applyOp, he]
    · exact ⟨hp, hb⟩
    · exact subInv_filter _ hp hb
  | joinClass uid cid pc =>
    rcases join_class_state db uid cid pc with he | he <;>
      simp only [applyOp, he] <;> exact ⟨hp, hb⟩
  | leaveClass uid cid =>
    rcases leave_class_state db uid cid with he | he <;>
      simp only [applyOp, he] <;> exact ⟨hp, hb⟩
  | createAssignment uid cid t d due now =>
    rcases create_assignment_state db uid cid t d due now with he | he <;>
      simp only [applyOp, he] <;> exact ⟨hp, hb⟩
  | updateAssignment uid cid aid t d due =>
    rcases update_assignment_state db uid cid aid t d due with he | ⟨a2, he⟩ <;>
      simp only [applyOp, he] <;> exact ⟨hp, hb⟩
  | deleteAssignment uid cid aid =>
    rcases delete_assignment_state db uid cid aid with he | he <;>
      simp only [applyOp, he]
    · exact ⟨hp, hb⟩
    · exact subInv_filter _ hp hb
  | createSubmission uid cid aid c f fs now =>
    rcases create_submission_state db uid cid aid c f fs now with he | ⟨hfree, he⟩ <;>
      simp only [applyOp, he]
    · exact ⟨hp, hb⟩
    · exact subInv_append hp hb hfree rfl
  | updateSubmission uid cid aid sid c f fs now =>
    rcases update_submission_state db uid cid aid sid c f fs now with
      he | ⟨s, s2, hfind, hid, hst, has, he⟩ <;> simp only [applyOp, he]
    · exact ⟨hp, hb⟩
    · exact subInv_overwrite hp hb hfind hid hst has
  | deleteSubmission uid cid aid sid =>
    rcases delete_submission_state db uid cid aid sid with he | he <;>
      simp only [applyOp, he]
    · exact ⟨hp, hb⟩
    · exact subInv_filter _ hp hb
  | gradeSubmission uid cid aid sid g f now =>
    rcases grade_submission_state db uid cid aid sid g f now with
      he | ⟨s, s2, hfind, hid, hst, has, he⟩ <;> simp only [applyOp, he]
    · exact ⟨hp, hb⟩
    · exact subInv_overwrite hp hb hfind hid hst has
  | createPeerReview uid cid aid sid c now =>
    rcases create_peer_review_state db uid cid aid sid c now with he | he <;>
      simp only [applyOp, he] <;> exact ⟨hp, hb⟩
  | getPendingReviews uid =>
    simp only [applyOp, get_pending_reviews_state]
    exact ⟨hp, hb⟩

/-- The submission invariant holds in every reachable state. -/
theorem subInv_reachable {db : DB} (h : Reachable db) : SubInv db := by
  induction h with
  | empty => exact subInv_empty
  | step hashF checkF op _ ih => exact subInv_step hashF checkF _ op ih

/-! ### The stored-email invariant (claim C10 machinery) -/

theorem userInv_empty : UserInv DB.empty := by
  constructor
  · intro u hu
    exact absurd hu (List.not_mem_nil u)
  · exact List.Pairwise.nil

/-- Every request handler preserves the stored-email invariant: only
`register` writes the user table, and it writes the normalized email
after an exact-duplicate check against the already-normalized table. -/
theorem userInv_step (hashF : String → String) (checkF : String → String → Bool)
    (db : DB) (op : Op) (h : UserInv db) :
    UserInv (applyOp hashF checkF db op) := by
  obtain ⟨hl, hp⟩ := h
  cases op with
  | register n e p r now =>
    rcases register_state hashF db n e p r now with he | ⟨hfree, he⟩ <;>
      simp only [applyOp, he]
    · exact ⟨hl, hp⟩
    · have hnone := List.find?_eq_none.mp hfree
      constructor
      · intro u hu
        rcases List.mem_append.mp hu with h1 | h1
        · exact hl u h1
        · rw [List.mem_singleton] at h1
          rw [h1]
          exact pyLower_idem (pyStrip e)
      · rw [List.pairwise_append]
        refine ⟨hp, List.pairwise_singleton _ _, ?_⟩
        intro a ha b hbm
        rw [List.mem_singleton] at hbm
        rw [hbm]
        intro hcontra
        exact hnone a ha (by simpa using hcontra)
  | login e p =>
    simp only [applyOp, login_state]
    exact ⟨hl, hp⟩
  | createClass uid nm sub g d pc now =>
    rcases create_class_state db uid nm sub g d pc now with he | he <;>
      simp only [applyOp, he] <;> exact ⟨hl, hp⟩
  | getClass uid cid =>
    simp only [applyOp, get_class_state]
    exact ⟨hl, hp⟩
  | deleteClass uid cid =>
    rcases delete_class_state db uid cid with he | he <;>
      simp only [applyOp, he, deleteClassCascade] <;> exact ⟨hl, hp⟩
  | joinClass uid cid pc =>
    rcases join_class_state db uid cid pc with he | he <;>
      simp only [applyOp, he] <;> exact ⟨hl, hp⟩
  | leaveClass uid cid =>
    rcases leave_class_state db uid cid with he | he <;>
      simp only [applyOp, he] <;> exact ⟨hl, hp⟩
  | createAssignment uid cid t d due now =>
    rcases create_assignment_state db uid cid t d due now with he | he <;>
      simp only [applyOp, he] <;> exact ⟨hl, hp⟩
  | updateAssignment uid cid aid t d due =>
    rcases update_assignment_state db uid cid aid t d due with he | ⟨a2, he⟩ <;>
      simp only [applyOp, he] <;> exact ⟨hl, hp⟩
  | deleteAssignment uid cid aid =>
    rcases delete_assignment_state db uid cid aid with he | he <;>
      simp only [applyOp, he, deleteAssignmentCascade] <;> exact ⟨hl, hp⟩
  | createSubmission uid cid aid c f fs now =>
    rcases create_submission_state db uid cid aid c f fs now with he | ⟨_, he⟩ <;>
      simp only [applyOp, he] <;> exact ⟨hl, hp⟩
  | updateSubmission uid cid aid sid c f fs now =>
    rcases update_submission_state db uid cid aid sid c f fs now with
      he | ⟨s, s2, _, _, _, _, he⟩ <;> simp only [applyOp, he] <;> exact ⟨hl, hp⟩
  | deleteSubmission uid cid aid sid =>
    rcases delete_submission_state db uid cid aid sid with he | he <;>
      simp only [applyOp, he] <;> exact ⟨hl, hp⟩
  | gradeSubmission uid cid aid sid g f now =>
    rcases grade_submission_state db uid cid aid sid g f now with
      he | ⟨s, s2, _, _, _, _, he⟩ <;> simp only [applyOp, he] <;> exact ⟨hl, hp⟩
  | createPeerReview uid cid aid sid c now =>
    rcases create_peer_review_state db uid cid aid sid c now with he | he <;>
      simp only [applyOp, he] <;> exact ⟨hl, hp⟩
  | getPendingReviews uid =>
    simp only [applyOp, get_pending_reviews_state]
    exact ⟨hl, hp⟩

/-- The stored-email invariant holds in every reachable state. -/
theorem userInv_reachable {db : DB} (h : Reachable db) : UserInv db := by
  induction h with
  | empty => exact userInv_empty
  | step hashF checkF op _ ih => exact userInv_step hashF checkF _ op ih

/-! ### Claim theorems -/

/-- C5: for a student caller, `join_class` fails 404 when the class is
absent, 401 when the (stripped) passcode does not match the class
passcode, 409 when the caller is already enrolled; on success it appends
the caller to the roster, after which the caller is enrolled. -/
theorem C5_join_class_spec (db : DB) (uid cid : Nat) (p : String) (u : User)
    (hu : db.getUser uid = some u) (hrole : u.role = "student") :
    (db.getClassRow cid = none →
      join_class db uid cid p = (.err 404 "Class not found", db)) ∧
    (∀ cls, db.getClassRow cid = some cls → cls.passcode ≠ pyStrip p →
      join_class db uid cid p = (.err 401 "Invalid passcode", db)) ∧
    (∀ cls, db.getClassRow cid = some cls → cls.passcode = pyStrip p →
      db.enrolled cid uid = true →
      join_class db uid cid p = (.err 409 "Already enrolled in this class", db)) ∧
    (∀ cls, db.getClassRow cid = some cls → cls.passcode = pyStrip p →
      db.enrolled cid uid = false →
      (join_class db uid cid p).1.status = 200 ∧
      (join_class db uid cid p).2.class_students = db.class_students ++ [(cid, uid)] ∧
      (join_class db uid cid p).2.enrolled cid uid = true) := by
  refine ⟨?_, ?_, ?_, ?_⟩
  · intro hcls
    simp [join_class, requireStudent, hu, hrole, hcls]
  · intro cls hcls hpc
    simp [join_class, requireStudent, hu, hrole, hcls, hpc]
  · intro cls hcls hpc henr
    simp [join_class, requireStudent, hu, hrole, hcls, hpc, henr]
  · intro cls hcls hpc henr
    have hmem : (cid, uid) ∉ db.class_students := by
      simpa [DB.enrolled] using henr
    refine ⟨?_, ?_, ?_⟩ <;>
      simp [join_class, requireStudent, hu, hrole, hcls, hpc, hmem,
        Outcome.status, DB.enrolled]

/-- C5 witness: in the fixture, student 3 joining again with the right
passcode hits the 409 branch. -/
theorem C5_join_class_spec_witness :
    join_class fxDB 3 1 "ABC123" =
      (.err 409 "Already enrolled in this class", fxDB) :=
  (C5_join_class_spec fxDB 3 1 "ABC123" fxStudent3 (by decide)
    (by decide)).2.2.1 fxClass (by decide) (by decide) (by decide)

/-- C8: for a student caller, `leave_class` fails 404 when the class is
absent and 400 when the caller is not enrolled; on success it removes
only the membership pair, leaving users, classes, assignments,
submissions and peer reviews untouched. -/
theorem C8_leave_class_spec (db : DB) (uid cid : Nat) (u : User)
    (hu : db.getUser uid = some u) (hrole : u.role = "student") :
    (db.getClassRow cid = none →
      leave_class db uid cid = (.err 404 "Class not found", db)) ∧
    (∀ cls, db.getClassRow cid = some cls → db.enrolled cid uid = false →
      leave_class db uid cid = (.err 400 "Not enrolled in this class", db)) ∧
    (∀ cls, db.getClassRow cid = some cls → db.enrolled cid uid = true →
      (leave_class db uid cid).1.status = 200 ∧
      (leave_class db uid cid).2 =
        { db with class_students := db.class_students.erase (cid, uid) }) := by
  refine ⟨?_, ?_, ?_⟩
  · intro hcls
    simp [leave_class, requireStudent, hu, hrole, hcls]
  · intro cls hcls henr
    simp [leave_class, requireStudent, hu, hrole, hcls, henr]
  · intro cls hcls henr
    refine ⟨?_, ?_⟩ <;>
      simp [leave_class, requireStudent, hu, hrole, hcls, henr, Outcome.status]

/-- C8 witness: student 2 leaves the fixture class; only the membership
pair goes away (the submission table is visibly untouched). -/
theorem C8_leave_class_spec_witness :
    (leave_class fxDB 2 1).1.status = 200 ∧
    (leave_class fxDB 2 1).2 = fxDBLeft ∧
    (leave_class fxDB 2 1).2.submissions = fxDB.submissions :=
  ⟨((C8_leave_class_spec fxDB 2 1 fxStudent2 (by decide) (by decide)).2.2
      fxClass (by decide) (by decide)).1,
   by
    rw [((C8_leave_class_spec fxDB 2 1 fxStudent2 (by decide) (by decide)).2.2
      fxClass (by decide) (by decide)).2]
    decide,
   by
    rw [((C8_leave_class_spec fxDB 2 1 fxStudent2 (by decide) (by decide)).2.2
      fxClass (by decide) (by decide)).2]⟩

/-- C6: `get_class` mutates nothing, fails 404 when the class is absent,
403 unless the caller is the owner or an enrolled student, and its
success payload carries the passcode and the full roster exactly when
the caller is the owner. -/
theorem C6_get_class_spec (db : DB) (uid cid : Nat) :
    ((get_class db uid cid).2 = db) ∧
    (db.getClassRow cid = none →
      (get_class db uid cid).1 = .err 404 "Class not found") ∧
    (∀ cls, db.getClassRow cid = some cls → cls.owner_id ≠ uid →
      (∀ u, db.getUser uid = some u → db.enrolled cid u.id = false) →
      (get_class db uid cid).1 = .err 403 "Access denied") ∧
    (∀ cls, db.getClassRow cid = some cls → cls.owner_id = uid →
      (get_class db uid cid).1 = .ok 200 (classToDict db cls true true true) ∧
      (classToDict db cls true true true).passcode = some cls.passcode ∧
      (classToDict db cls true true true).students =
        some ((db.classStudents cls.id).map userToDict)) ∧
    (∀ cls u, db.getClassRow cid = some cls → cls.owner_id ≠ uid →
      db.getUser uid = some u → db.enrolled cid u.id = true →
      (get_class db uid cid).1 = .ok 200 (classToDict db cls false false true) ∧
      (classToDict db cls false false true).passcode = none ∧
      (classToDict db cls false false true).students = none) := by
  refine ⟨get_class_state db uid cid, ?_, ?_, ?_, ?_⟩
  · intro hcls
    simp [get_class, hcls]
  · intro cls hcls how hst
    rcases hgu : db.getUser uid with _ | u
    · simp [get_class, hcls, hgu, how]
    · have := hst u hgu
      simp [get_class, hcls, hgu, how, this]
  · intro cls hcls how
    refine ⟨?_, ?_, ?_⟩
    · simp [get_class, hcls, how]
    · simp [classToDict]
    · simp [classToDict]
  · intro cls u hcls how hgu henr
    refine ⟨?_, ?_, ?_⟩
    · simp [get_class, hcls, hgu, how, henr]
    · simp [classToDict]
    · simp [classToDict]

/-- C6 witness: in the fixture, enrolled student 3 gets the class detail
without passcode or roster; the state is unchanged. -/
theorem C6_get_class_spec_witness :
    (get_class fxDB 3 1).2 = fxDB ∧
    (get_class fxDB 3 1).1.status = 200 ∧
    (classToDict fxDB fxClass false false true).passcode = none :=
  ⟨(C6_get_class_spec fxDB 3 1).1,
   by
    rw [((C6_get_class_spec fxDB 3 1).2.2.2.2 fxClass fxStudent3 (by decide)
      (by decide) (by decide) (by decide)).1]
    rfl,
   ((C6_get_class_spec fxDB 3 1).2.2.2.2 fxClass fxStudent3 (by decide)
      (by decide) (by decide) (by decide)).2.1⟩

/-- C9: a failed login returns one fixed response — the same 401 status
and the same message — whether the email is unknown or the password is
wrong, so failure responses cannot distinguish the two cases. -/
theorem C9_login_no_enumeration :
    (∀ (checkF : String → String → Bool) (db : DB) (e p : String),
      (db.users.find? (fun x => x.email = pyLower (pyStrip e))) = none →
      login checkF db e p = (.err 401 "Invalid email or password", db)) ∧
    (∀ (checkF : String → String → Bool) (db : DB) (e p : String) (u : User),
      (db.users.find? (fun x => x.email = pyLower (pyStrip e))) = some u →
      checkF u.password_hash p = false →
      login checkF db e p = (.err 401 "Invalid email or password", db)) ∧
    (∀ (checkF1 : String → String → Bool) (db1 : DB) (e1 p1 : String)
       (checkF2 : String → String → Bool) (db2 : DB) (e2 p2 : String) (u : User),
      (db1.users.find? (fun x => x.email = pyLower (pyStrip e1))) = none →
      (db2.users.find? (fun x => x.email = pyLower (pyStrip e2))) = some u →
      checkF2 u.password_hash p2 = false →
      (login checkF1 db1 e1 p1).1 = (login checkF2 db2 e2 p2).1) := by
  have h1 : ∀ (checkF : String → String → Bool) (db : DB) (e p : String),
      (db.users.find? (fun x => x.email = pyLower (pyStrip e))) = none →
      login checkF db e p = (.err 401 "Invalid email or password", db) := by
    intro checkF db e p hf
    simp [login, hf]
  have h2 : ∀ (checkF : String → String → Bool) (db : DB) (e p : String) (u : User),
      (db.users.find? (fun x => x.email = pyLower (pyStrip e))) = some u →
      checkF u.password_hash p = false →
      login checkF db e p = (.err 401 "Invalid email or password", db) := by
    intro checkF db e p u hf hc
    simp [login, hf, hc]
  refine ⟨h1, h2, ?_⟩
  intro checkF1 db1 e1 p1 checkF2 db2 e2 p2 u hf1 hf2 hc2
  rw [h1 checkF1 db1 e1 p1 hf1, h2 checkF2 db2 e2 p2 u hf2 hc2]

/-- C9 witness: an unknown email against the empty database and a wrong
password against the fixture database produce identical responses. -/
theorem C9_login_no_enumeration_witness :
    (login (fun h p => h = "h" && p = "pw") DB.empty "ghost@x.com" "pw").1 =
      (login (fun h p => h = "h" && p = "pw") fxDB "S2@x.com " "bad").1 :=
  C9_login_no_enumeration.2.2 (fun h p => h = "h" && p = "pw") DB.empty
    "ghost@x.com" "pw" (fun h p => h = "h" && p = "pw") fxDB "S2@x.com " "bad"
    fxStudent2 (by decide) (by decide) (by decide)

/-- C2 counterexample: student 2 authored the fixture submission but has
left the class; reviewing their own submission yields 403 from the
enrollment check, not the claimed 400 — so the self-review error is not
independent of enrollment (and a non-student author is likewise stopped
by the 403 role gate before the self-review check). -/
theorem C2_counterexample :
    fxSub.student_id = 2 ∧
    fxDBLeft.getSubmission 1 = some fxSub ∧
    (create_peer_review fxDBLeft 2 1 1 1 "nice" 5).1 =
      .err 403 "Not enrolled in this class" ∧
    (create_peer_review fxDBLeft 2 1 1 1 "nice" 5).1.status ≠ 400 := by
  decide

/-- C2 (amended): for an acting student who passes the role gate, the
class lookup, the enrollment check and the submission-chain check, a
self-review fails 400 before any state change; role and enrollment are
not immaterial, since their 403 checks run first. -/
theorem C2_self_review_bad_request (db : DB) (uid cid aid sid : Nat)
    (content : String) (now : Nat) (u : User) (cls : Class) (s : Submission)
    (hu : db.getUser uid = some u) (hrole : u.role = "student")
    (hcls : db.getClassRow cid = some cls)
    (henr : db.enrolled cid uid = true)
    (hs : db.getSubmission sid = some s)
    (hchain : chainOk db s cid aid = true)
    (hself : s.student_id = uid) :
    create_peer_review db uid cid aid sid content now =
      (.err 400 "Cannot review your own submission", db) := by
  have huid : u.id = uid := by simpa using List.find?_some hu
  simp [create_peer_review, requireStudent, hu, hrole, hcls, huid, henr,
    hs, hchain, hself]

/-- C2 witness: in the fixture, enrolled student 2 reviewing their own
submission hits the 400 branch. -/
theorem C2_self_review_bad_request_witness :
    create_peer_review fxDB 2 1 1 1 "nice" 5 =
      (.err 400 "Cannot review your own submission", fxDB) :=
  C2_self_review_bad_request fxDB 2 1 1 1 "nice" 5 fxStudent2 fxClass fxSub
    (by decide) (by decide) (by decide) (by decide) (by decide) (by decide)
    (by decide)

/-- Looking up a key after overwriting the row at that key finds the new
row. -/
theorem find?_map_overwrite {α : Type} (key : α → Nat) (k : Nat) (s2 : α) :
    ∀ {l : List α} {s : α}, l.find? (fun x => key x = k) = some s → key s2 = k →
    (l.map (fun x => if key x = k then s2 else x)).find?
      (fun x => key x = k) = some s2 := by
  intro l
  induction l with
  | nil => intro s hf; simp at hf
  | cons h t ih =>
    intro s hf hid
    by_cases hh : key h = k
    · simp only [List.map_cons, if_pos hh]
      rw [List.find?_cons_of_pos _ (by simpa using hid)]
    · rw [List.find?_cons_of_neg _ (by simpa using hh)] at hf
      simp only [List.map_cons, if_neg hh]
      rw [List.find?_cons_of_neg _ (by simpa using hh)]
      exact ih hf hid

/-- Submission lookup after overwriting the row at the looked-up id. -/
theorem getSubmission_overwrite (db : DB) {sid : Nat} {s : Submission}
    (s2 : Submission) (hf : db.getSubmission sid = some s)
    (hid : s2.id = sid) :
    DB.getSubmission
      { db with submissions :=
          db.submissions.map (fun x => if x.id = sid then s2 else x) } sid =
      some s2 := by
  have hf2 : db.submissions.find? (fun x => x.id = sid) = some s := hf
  show (db.submissions.map (fun x => if x.id = sid then s2 else x)).find?
      (fun x => x.id = sid) = some s2
  exact find?_map_overwrite (fun x => x.id) sid s2 hf2 hid

/-- The success path of `grade_submission`: status 200 and the single
overwrite of the target row. -/
theorem grade_submission_success (db : DB) (uid cid aid sid : Nat)
    (g : String) (f : Option String) (now : Nat)
    (u : User) (cls : Class) (s : Submission)
    (hu : db.getUser uid = some u) (hrole : u.role = "teacher")
    (hcls : db.getClassRow cid = some cls) (hown : cls.owner_id = uid)
    (hs : db.getSubmission sid = some s)
    (hchain : chainOk db s cid aid = true) :
    (grade_submission db uid cid aid sid g f now).1.status = 200 ∧
    (grade_submission db uid cid aid sid g f now).2 =
      { db with submissions := db.submissions.map (fun x =>
          if x.id = sid then
            { s with grade := some (pyStrip g),
                     feedback := pyStripOpt (f.getD ""),
                     graded_at := some now }
          else x) } := by
  constructor <;>
    simp [grade_submission, requireTeacher, hu, hrole, hcls, hown, hs,
      hchain, Outcome.status]

/-- C7: `grade_submission` by a teacher who does not own the class fails
403 and changes nothing; by the owner it overwrites grade, feedback and
graded_at of the target submission, and grading twice with the same
grade and feedback leaves every submission with the same grade and
feedback as grading once. -/
theorem C7_grade_submission_spec (db : DB) (uid cid aid sid : Nat)
    (g : String) (f : Option String) (now now2 : Nat)
    (u : User) (cls : Class) (s : Submission)
    (hu : db.getUser uid = some u) (hrole : u.role = "teacher")
    (hcls : db.getClassRow cid = some cls)
    (hs : db.getSubmission sid = some s)
    (hchain : chainOk db s cid aid = true) :
    (cls.owner_id ≠ uid →
      grade_submission db uid cid aid sid g f now =
        (.err 403 "Access denied", db)) ∧
    (cls.owner_id = uid →
      (grade_submission db uid cid aid sid g f now).1.status = 200 ∧
      (grade_submission db uid cid aid sid g f now).2.getSubmission sid =
        some { s with grade := some (pyStrip g),
                      feedback := pyStripOpt (f.getD ""),
                      graded_at := some now } ∧
      (grade_submission (grade_submission db uid cid aid sid g f now).2
          uid cid aid sid g f now2).2.submissions.map
            (fun x => (x.grade, x.feedback)) =
        (grade_submission db uid cid aid sid g f now).2.submissions.map
          (fun x => (x.grade, x.feedback))) := by
  have hsid : s.id = sid := by simpa using List.find?_some hs
  constructor
  · intro hown
    simp [grade_submission, requireTeacher, hu, hrole, hcls, hown]
  · intro hown
    obtain ⟨hst1, h2⟩ :=
      grade_submission_success db uid cid aid sid g f now u cls s
        hu hrole hcls hown hs hchain
    have hs1 := getSubmission_overwrite db
      { s with grade := some (pyStrip g), feedback := pyStripOpt (f.getD ""),
               graded_at := some now } hs hsid
    refine ⟨hst1, by rw [h2]; exact hs1, ?_⟩
    obtain ⟨hst2, h2b⟩ :=
      grade_submission_success
        { db with submissions := db.submissions.map (fun x =>
            if x.id = sid then
              { s with grade := some (pyStrip g),
                       feedback := pyStripOpt (f.getD ""),
                       graded_at := some now }
            else x) }
        uid cid aid sid g f now2 u cls
        { s with grade := some (pyStrip g), feedback := pyStripOpt (f.getD ""),
                 graded_at := some now }
        hu hrole hcls hown hs1 hchain
    rw [h2, h2b]
    show ((db.submissions.map _).map _).map _ = (db.submissions.map _).map _
    simp only [List.map_map]
    apply List.map_congr_left
    intro y _
    by_cases hyid : y.id = sid
    · simp [Function.comp, if_pos hyid, hsid]
    · simp [Function.comp, if_neg hyid]

/-- C7 witness: the owning teacher grades the fixture submission; the
row carries the grade, and re-grading leaves grade and feedback equal. -/
theorem C7_grade_submission_spec_witness :
    (grade_submission fxDB 1 1 1 1 " A " (some "Good") 9).1.status = 200 ∧
    (grade_submission fxDB 1 1 1 1 " A " (some "Good") 9).2.getSubmission 1 =
      some { fxSub with grade := some "A", feedback := some "Good",
                        graded_at := some 9 } ∧
    (grade_submission (grade_submission fxDB 1 1 1 1 " A " (some "Good") 9).2
        1 1 1 1 " A " (some "Good") 11).2.submissions.map
          (fun x => (x.grade, x.feedback)) =
      (grade_submission fxDB 1 1 1 1 " A " (some "Good") 9).2.submissions.map
        (fun x => (x.grade, x.feedback)) := by
  have h := (C7_grade_submission_spec fxDB 1 1 1 1 " A " (some "Good") 9 11
    fxTeacher fxClass fxSub (by decide) (by decide) (by decide) (by decide)
    (by decide)).2 (by decide)
  refine ⟨h.1, ?_, h.2.2⟩
  rw [h.2.1]
  decide

/-- C4: `delete_class` fails 404 for an absent class and 403 for a
teacher who is not the owner, both without touching the state; a delete
by the owner leaves no assignment of the class, no submission under any
of its assignments and no peer review under any such submission. -/
theorem C4_delete_class_spec (db : DB) (uid cid : Nat) (u : User)
    (hu : db.getUser uid = some u) (hrole : u.role = "teacher") :
    (db.getClassRow cid = none →
      delete_class db uid cid = (.err 404 "Class not found", db)) ∧
    (∀ cls, db.getClassRow cid = some cls → cls.owner_id ≠ uid →
      delete_class db uid cid =
        (.err 403 "Only the class owner can delete it", db)) ∧
    (∀ cls, db.getClassRow cid = some cls → cls.owner_id = uid →
      (delete_class db uid cid).1.status = 200 ∧
      (delete_class db uid cid).2 = deleteClassCascade db cid ∧
      (∀ a ∈ (delete_class db uid cid).2.assignments, a.class_id ≠ cid) ∧
      (∀ s2 ∈ (delete_class db uid cid).2.submissions,
        ∀ a ∈ db.assignments, a.class_id = cid → s2.assignment_id ≠ a.id) ∧
      (∀ r ∈ (delete_class db uid cid).2.peer_reviews,
        ∀ s2 ∈ db.submissions, ∀ a ∈ db.assignments,
          a.class_id = cid → s2.assignment_id = a.id →
          r.submission_id ≠ s2.id)) := by
  refine ⟨?_, ?_, ?_⟩
  · intro hcls
    simp [delete_class, requireTeacher, hu, hrole, hcls]
  · intro cls hcls hown
    simp [delete_class, requireTeacher, hu, hrole, hcls, hown]
  · intro cls hcls hown
    have hdel : delete_class db uid cid =
        (.ok 200 "Class deleted successfully", deleteClassCascade db cid) := by
      simp [delete_class, requireTeacher, hu, hrole, hcls, hown]
    rw [hdel]
    refine ⟨rfl, rfl, ?_, ?_, ?_⟩
    · intro a ha
      have h1 := (List.mem_filter.mp ha).2
      simpa using h1
    · intro s2 hs2 a ha hac
      have h1 := (List.mem_filter.mp hs2).2
      rw [Bool.not_eq_eq_eq_not, Bool.not_true, List.any_eq_false] at h1
      have h2 := h1 a (List.mem_filter.mpr ⟨ha, by simpa using hac⟩)
      intro hc
      exact h2 (by simpa using hc.symm)
    · intro r hr s2 hs2 a ha hac hsa
      have h1 := (List.mem_filter.mp hr).2
      rw [Bool.not_eq_eq_eq_not, Bool.not_true, List.any_eq_false] at h1
      have hdead : s2 ∈ db.submissions.filter
          (fun s3 => (db.assignments.filter (fun a2 => a2.class_id = cid)).any
            (fun a2 => a2.id = s3.assignment_id)) := by
        refine List.mem_filter.mpr ⟨hs2, ?_⟩
        rw [List.any_eq_true]
        exact ⟨a, List.mem_filter.mpr ⟨ha, by simpa using hac⟩, by simpa using hsa.symm⟩
      have h2 := h1 s2 hdead
      intro hc
      exact h2 (by simpa using hc.symm)

/-- C4 witness: the owner deletes the fixture class; the assignment, the
submission under it and (vacuously) the reviews are all gone. -/
theorem C4_delete_class_spec_witness :
    (delete_class fxDB 1 1).1.status = 200 ∧
    (∀ a ∈ (delete_class fxDB 1 1).2.assignments, a.class_id ≠ 1) ∧
    (∀ s2 ∈ (delete_class fxDB 1 1).2.submissions,
      ∀ a ∈ fxDB.assignments, a.class_id = 1 → s2.assignment_id ≠ a.id) := by
  have h := (C4_delete_class_spec fxDB 1 1 fxTeacher (by decide)
    (by decide)).2.2 fxClass (by decide) (by decide)
  exact ⟨h.1, h.2.2.1, h.2.2.2.1⟩

/-- C1: for a student caller, `get_pending_reviews` mutates nothing and
returns, in class → assignment → submission traversal order, exactly the
submissions of the enrolled classes that are neither authored by the
caller nor already reviewed by the caller, each paired with its class and
assignment summaries; in particular no returned entry is self-authored
or already reviewed. -/
theorem C1_pending_reviews_spec (db : DB) (uid : Nat) (u : User)
    (hu : db.getUser uid = some u) (hrole : u.role = "student") :
    ((get_pending_reviews db uid).2 = db) ∧
    ((get_pending_reviews db uid).1 = .ok 200 (pendingList db uid)) ∧
    (∀ it, it ∈ pendingList db uid ↔
      ∃ c ∈ db.enrolledClasses uid, ∃ a ∈ db.classAssignments c.id,
        ∃ s ∈ db.assignmentSubmissions a.id,
          s.student_id ≠ uid ∧ db.findReview uid s.id = none ∧
          it = mkPendingItem db c a s) ∧
    (∀ it ∈ pendingList db uid,
      it.submission.studentId ≠ uid ∧
      db.findReview uid it.submission.id = none) := by
  have h3 : ∀ it, it ∈ pendingList db uid ↔
      ∃ c ∈ db.enrolledClasses uid, ∃ a ∈ db.classAssignments c.id,
        ∃ s ∈ db.assignmentSubmissions a.id,
          s.student_id ≠ uid ∧ db.findReview uid s.id = none ∧
          it = mkPendingItem db c a s := by
    intro it
    unfold pendingList
    simp only [List.mem_flatMap]
    constructor
    · rintro ⟨c, hc, a, ha, s, hs, hit⟩
      rcases hrev : db.findReview uid s.id with _ | r
      · by_cases h1 : s.student_id = uid
        · simp [h1] at hit
        · simp [h1, hrev] at hit
          exact ⟨c, hc, a, ha, s, hs, h1, hrev, hit⟩
      · simp [hrev, ite_self] at hit
    · rintro ⟨c, hc, a, ha, s, hs, h1, h2, rfl⟩
      exact ⟨c, hc, a, ha, s, hs, by simp [h1, h2]⟩
  refine ⟨get_pending_reviews_state db uid, ?_, h3, ?_⟩
  · simp [get_pending_reviews, requireStudent, hu, hrole]
  · intro it hit
    obtain ⟨c, _, a, _, s, _, h1, h2, rfl⟩ := (h3 it).mp hit
    exact ⟨by simpa [mkPendingItem, submissionToDict] using h1,
      by simpa [mkPendingItem, submissionToDict] using h2⟩

/-- C1 witness: student 3 in the fixture sees exactly the classmate
submission as pending, and the state is unchanged. -/
theorem C1_pending_reviews_spec_witness :
    (get_pending_reviews fxDB 3).2 = fxDB ∧
    mkPendingItem fxDB fxClass fxAsg fxSub ∈ pendingList fxDB 3 :=
  ⟨(C1_pending_reviews_spec fxDB 3 fxStudent3 (by decide) (by decide)).1,
   ((C1_pending_reviews_spec fxDB 3 fxStudent3 (by decide)
      (by decide)).2.2.1 (mkPendingItem fxDB fxClass fxAsg fxSub)).mpr
    ⟨fxClass, by decide, fxAsg, by decide, fxSub, by decide, by decide,
     by decide, rfl⟩⟩

/-- C3: every reachable state has at most one submission per
`(student_id, assignment_id)` pair — no operation ever creates a second
one — and, for an enrolled student on a valid assignment,
`create_submission` fails 409 adding nothing when a submission for the
pair exists, and otherwise succeeds appending exactly that one row. -/
theorem C3_submission_uniqueness :
    (∀ db : DB, Reachable db →
      db.submissions.Pairwise (fun s t =>
        s.student_id ≠ t.student_id ∨ s.assignment_id ≠ t.assignment_id)) ∧
    (∀ (db : DB) (uid cid aid : Nat) (content fileName : Option String)
        (fileSize : Option Nat) (now : Nat) (u : User) (cls : Class)
        (a : Assignment),
      db.getUser uid = some u → u.role = "student" →
      db.getClassRow cid = some cls → db.enrolled cid uid = true →
      db.getAssignment aid = some a → a.class_id = cid →
      (∀ ex, db.submissions.find?
          (fun s => s.student_id = uid && s.assignment_id = aid) = some ex →
        create_submission db uid cid aid content fileName fileSize now =
          (.err 409 "Already submitted. Use PUT to edit.", db)) ∧
      (db.submissions.find?
          (fun s => s.student_id = uid && s.assignment_id = aid) = none →
        (create_submission db uid cid aid content fileName fileSize now).1.status
            = 201 ∧
        (create_submission db uid cid aid content fileName fileSize now).2 =
          { db with
              submissions := db.submissions ++
                [newSubmission db uid aid content fileName fileSize now],
              next_submission_id := db.next_submission_id + 1 })) := by
  constructor
  · intro db h
    exact ((subInv_reachable h).1).imp (fun hst => hst.2)
  · intro db uid cid aid content fileName fileSize now u cls a
      hu hrole hcls henr ha hac
    constructor
    · intro ex hfind
      simp [create_submission, requireStudent, hu, hrole, hcls, henr, ha,
        hac, hfind]
    · intro hfind
      constructor <;>
        simp [create_submission, newSubmission, requireStudent, hu, hrole,
          hcls, henr, ha, hac, hfind, Outcome.status]

/-- C3 witness: student 2 re-submitting in the fixture hits 409 and the
state is unchanged; the pair-uniqueness invariant holds at a concrete
reachable state. -/
theorem C3_submission_uniqueness_witness :
    create_submission fxDB 2 1 1 (some "again") none none 7 =
      (.err 409 "Already submitted. Use PUT to edit.", fxDB) ∧
    (applyOp fxHash fxCheck DB.empty
        (.register "N" "a@b.co" "Passw0rd" "student" 0)).submissions.Pairwise
      (fun s t => s.student_id ≠ t.student_id ∨
        s.assignment_id ≠ t.assignment_id) :=
  ⟨((C3_submission_uniqueness.2 fxDB 2 1 1 (some "again") none none 7
      fxStudent2 fxClass fxAsg (by decide) (by decide) (by decide) (by decide)
      (by decide) (by decide)).1 fxSub (by decide)),
   C3_submission_uniqueness.1 _
     (Reachable.step fxHash fxCheck (.register "N" "a@b.co" "Passw0rd" "student" 0)
       Reachable.empty)⟩

/-- C10: stored emails are uppercase-free, email uniqueness is
case-insensitive, a successful registration stores the stripped and
lowercased email, registering any casing of an already-stored email is
rejected, and a stored user authenticates with any casing of their
email given the right password. -/
theorem C10_email_normalization :
    (∀ db : DB, Reachable db → ∀ u ∈ db.users, ∀ c ∈ u.email.data,
      c.isUpper = false) ∧
    (∀ db : DB, Reachable db →
      db.users.Pairwise (fun u v => pyLower u.email ≠ pyLower v.email)) ∧
    (∀ (hashF : String → String) (db : DB) (n e p r : String) (now : Nat),
      (pyLower (pyStrip r) = "teacher" ∨ pyLower (pyStrip r) = "student") →
      validate_email (pyLower (pyStrip e)) = true →
      (validate_password p).1 = true →
      db.users.find? (fun x => x.email = pyLower (pyStrip e)) = none →
      register hashF db n e p r now =
        (.ok 201 (userToDict (regUser hashF db n e p r now)),
         { db with users := db.users ++ [regUser hashF db n e p r now],
                   next_user_id := db.next_user_id + 1 })) ∧
    (∀ (hashF : String → String) (db : DB) (n e p r : String) (now : Nat)
        (u : User),
      u ∈ db.users → u.email = pyLower (pyStrip e) →
      register hashF db n e p r now ≠
        (.ok 201 (userToDict (regUser hashF db n e p r now)),
         { db with users := db.users ++ [regUser hashF db n e p r now],
                   next_user_id := db.next_user_id + 1 }) ∧
      ((pyLower (pyStrip r) = "teacher" ∨ pyLower (pyStrip r) = "student") →
       validate_email (pyLower (pyStrip e)) = true →
       (validate_password p).1 = true →
       register hashF db n e p r now =
         (.err 409 "Email already registered", db))) ∧
    (∀ (checkF : String → String → Bool) (db : DB) (e p : String) (u : User),
      Reachable db → u ∈ db.users → pyLower (pyStrip e) = u.email →
      checkF u.password_hash p = true →
      login checkF db e p = (.ok 200 (userToDict u), db)) := by
  have hsome : ∀ (db : DB) (e : String) (u : User), u ∈ db.users →
      u.email = pyLower (pyStrip e) →
      ∃ v, db.users.find? (fun x => x.email = pyLower (pyStrip e)) = some v := by
    intro db e u hu hue
    have h1 : (db.users.find?
        (fun x => x.email = pyLower (pyStrip e))).isSome = true :=
      List.find?_isSome.mpr ⟨u, hu, by simp [hue]⟩
    exact Option.isSome_iff_exists.mp h1
  refine ⟨?_, ?_, ?_, ?_, ?_⟩
  · intro db h u hu c hc
    obtain ⟨hl, _⟩ := userInv_reachable h
    rw [← hl u hu] at hc
    exact pyLower_no_upper _ c hc
  · intro db h
    obtain ⟨hl, hp⟩ := userInv_reachable h
    refine hp.imp_of_mem ?_
    intro a b ha hb hab
    rw [hl a ha, hl b hb]
    exact hab
  · intro hashF db n e p r now hrole hemail hpw hfree
    rcases hrole with hr | hr <;>
      simp [register, regUser, hr, hemail, hpw, hfree]
  · intro hashF db n e p r now u hu hue
    obtain ⟨v, hv⟩ := hsome db e u hu hue
    constructor
    · intro hcontra
      have h1 : (register hashF db n e p r now).2.users =
          db.users ++ [regUser hashF db n e p r now] := by rw [hcontra]
      rcases register_state hashF db n e p r now with he | ⟨hfree, _⟩
      · rw [he] at h1
        have h2 : db.users.length = db.users.length + 1 := by
          conv_lhs => rw [h1]
          simp
        omega
      · rw [hfree] at hv
        exact Option.noConfusion hv
    · intro hrole hemail hpw
      rcases hrole with hr | hr <;>
        simp [register, hr, hemail, hpw, hv]
  · intro checkF db e p u h hu hue hcheck
    obtain ⟨_, hp⟩ := userInv_reachable h
    obtain ⟨v, hv⟩ := hsome db e u hu hue.symm
    have hveq : v = u := by
      have h1 : v.email = pyLower (pyStrip e) := by
        simpa using List.find?_some hv
      exact pairwise_key_inj (fun x => x.email) hp v
        (List.mem_of_find?_eq_some hv) u hu
        (show v.email = u.email by rw [h1, ← hue])
    rw [hveq] at hv
    simp [login, hv, hcheck]

/-- C10 witness: registering with a padded mixed-case email stores the
normalized address, and login succeeds with a differently-cased email. -/
theorem C10_email_normalization_witness :
    (register fxHash DB.empty "N" " Ab@X.Com " "Passw0rd" "student" 0).2.users =
      [{ id := 1, name := "N", email := "ab@x.com", password_hash := "h",
         role := "student", created_at := 0 }] ∧
    login fxCheck
      (applyOp fxHash fxCheck DB.empty
        (.register "N" " Ab@X.Com " "Passw0rd" "student" 0))
      "AB@x.COM" "Passw0rd" =
      (.ok 200 (userToDict
          { id := 1, name := "N", email := "ab@x.com",
            password_hash := "h", role := "student", created_at := 0 }),
       applyOp fxHash fxCheck DB.empty
        (.register "N" " Ab@X.Com " "Passw0rd" "student" 0)) := by
  constructor
  · rw [C10_email_normalization.2.2.1 fxHash DB.empty "N" " Ab@X.Com "
      "Passw0rd" "student" 0 (by decide) (by decide) (by decide) (by decide)]
    decide
  · exact C10_email_normalization.2.2.2.2 fxCheck _ "AB@x.COM" "Passw0rd"
      { id := 1, name := "N", email := "ab@x.com", password_hash := "h",
        role := "student", created_at := 0 }
      (Reachable.step fxHash fxCheck
        (.register "N" " Ab@X.Com " "Passw0rd" "student" 0) Reachable.empty)
      (by decide) (by decide) (by decide)

end ReviewIn
